import Mathlib

/-!
Verification of the ShadowTLS v3 server-side handshake engine of the
"shoes" proxy (src/shadow_tls/shadow_tls_server_handler.rs and
src/shadow_tls/shadow_tls_hmac.rs), as a shallow embedding.

Bytes are modelled as `Nat` (values < 256 in all intended uses), byte
buffers as `List Nat`.  The `aws_lc_rs` HMAC-SHA1 primitive used by
`ShadowTlsHmac` is an external library; it is given a concrete,
executable model (`sha1`, `hmacSha1`) implementing FIPS 180 SHA-1 and
RFC 2104 HMAC, validated against the standard test vectors.  Stateful
stream I/O is modelled by explicit state passing: a TLS record read off
a stream becomes a `TlsFrame` value, and each loop of the source is a
recursive function over the list of records of its direction.
Rust slice-indexing panics (out-of-bounds `[a..b]`) are modelled by
explicit `crashed` outcomes.
-/

set_option maxRecDepth 100000

set_option maxHeartbeats 2000000

namespace ShoesVerify

/-! ## SHA-1 and HMAC-SHA1 (model of the external aws_lc_rs primitive) -/

/-- Reduce a natural number to a 32-bit word. -/
def w32 (n : Nat) : Nat := n % 4294967296

/-- Rotate a 32-bit word left by `b` bits (input assumed reduced). -/
def rotl (b n : Nat) : Nat := w32 (n <<< b) ||| (n >>> (32 - b))

/-- Big-endian bytes to 32-bit words, four at a time. -/
def wordsOfBytes : List Nat → List Nat
  | a :: b :: c :: d :: rest => (((a * 256 + b) * 256 + c) * 256 + d) :: wordsOfBytes rest
  | _ => []

/-- A 32-bit word as four big-endian bytes. -/
def wordBytes (w : Nat) : List Nat :=
  [(w >>> 24) % 256, (w >>> 16) % 256, (w >>> 8) % 256, w % 256]

/-- A 64-bit quantity as eight big-endian bytes. -/
def be64 (n : Nat) : List Nat :=
  [(n >>> 56) % 256, (n >>> 48) % 256, (n >>> 40) % 256, (n >>> 32) % 256,
   (n >>> 24) % 256, (n >>> 16) % 256, (n >>> 8) % 256, n % 256]

/-- SHA-1 message padding: 0x80, zeros up to 56 mod 64, then the bit length. -/
def sha1Pad (msg : List Nat) : List Nat :=
  msg ++ [128] ++ List.replicate ((119 - msg.length % 64) % 64) 0 ++ be64 (8 * msg.length)

/-- Fuelled worker for `blocks64`; the fuel only bounds the recursion depth. -/
def blocks64Aux : Nat → List Nat → List (List Nat)
  | 0, _ => []
  | _, [] => []
  | fuel + 1, a :: rest => ((a :: rest).take 64) :: blocks64Aux fuel (rest.drop 63)

/-- Split a byte list into 64-byte blocks (`l.length` is always enough fuel). -/
def blocks64 (l : List Nat) : List (List Nat) := blocks64Aux l.length l

/-- Extend the 16-word message schedule by `n` further words. -/
def extendW (ws : List Nat) : Nat → List Nat
  | 0 => ws
  | n + 1 =>
    let cur := extendW ws n
    cur ++ [rotl 1 (cur.getD (n + 13) 0 ^^^ cur.getD (n + 8) 0 ^^^
                    cur.getD (n + 2) 0 ^^^ cur.getD n 0)]

/-- SHA-1 round function and round constant for round `t`. -/
def sha1FK (t b c d : Nat) : Nat × Nat :=
  if t < 20 then ((b &&& c) ||| ((b ^^^ 4294967295) &&& d), 1518500249)
  else if t < 40 then (b ^^^ c ^^^ d, 1859775393)
  else if t < 60 then ((b &&& c) ||| (b &&& d) ||| (c &&& d), 2400959708)
  else (b ^^^ c ^^^ d, 3395469782)

/-- The 80 SHA-1 rounds over one message schedule. -/
def sha1Rounds (w : List Nat) (st : Nat × Nat × Nat × Nat × Nat) :
    Nat × Nat × Nat × Nat × Nat :=
  (List.range 80).foldl
    (fun st t =>
      let (a, b, c, d, e) := st
      let (f, k) := sha1FK t b c d
      (w32 (rotl 5 a + f + e + k + w.getD t 0), a, rotl 30 b, c, d))
    st

/-- One SHA-1 compression step over a 64-byte block. -/
def sha1Compress (h : List Nat) (block : List Nat) : List Nat :=
  let w := extendW (wordsOfBytes block) 64
  let st := sha1Rounds w (h.getD 0 0, h.getD 1 0, h.getD 2 0, h.getD 3 0, h.getD 4 0)
  [w32 (h.getD 0 0 + st.1), w32 (h.getD 1 0 + st.2.1), w32 (h.getD 2 0 + st.2.2.1),
   w32 (h.getD 3 0 + st.2.2.2.1), w32 (h.getD 4 0 + st.2.2.2.2)]

/-- SHA-1 of a byte list, as a 20-byte list. -/
def sha1 (msg : List Nat) : List Nat :=
  (((blocks64 (sha1Pad msg)).foldl sha1Compress
      [1732584193, 4023233417, 2562383102, 271733878, 3285377520]).map wordBytes).flatten

/-- HMAC-SHA1 of a message under a key, as a 20-byte list (RFC 2104). -/
def hmacSha1 (key msg : List Nat) : List Nat :=
  let k0 := if 64 < key.length then sha1 key else key
  let kp := k0 ++ List.replicate (64 - k0.length) 0
  sha1 ((kp.map (fun b => b ^^^ 92)) ++ sha1 ((kp.map (fun b => b ^^^ 54)) ++ msg))

/-! ## ShadowTlsHmac (src/shadow_tls/shadow_tls_hmac.rs)

The Rust struct wraps an incremental `aws_lc_rs::hmac::Context`; the
functional model records the key and the bytes absorbed so far, and
produces on demand the first 4 bytes of the HMAC-SHA1 over them.
`digest` clones and signs (it does not consume the context);
`finalized_digest` signs the context itself.  In the pure model a
context value is never mutated, so both return the same tag. -/

structure ShadowTlsHmac where
  key : List Nat
  data : List Nat
deriving DecidableEq

/-- ShadowTlsHmac::new: a fresh context over a key, nothing absorbed. -/
def ShadowTlsHmac.new (key : List Nat) : ShadowTlsHmac := ⟨key, []⟩

/-- ShadowTlsHmac::update: absorb further bytes. -/
def ShadowTlsHmac.update (h : ShadowTlsHmac) (d : List Nat) : ShadowTlsHmac :=
  ⟨h.key, h.data ++ d⟩

/-- The derived Clone implementation. -/
def ShadowTlsHmac.clone (h : ShadowTlsHmac) : ShadowTlsHmac := h

/-- ShadowTlsHmac::digest: first 4 bytes of the HMAC over the absorbed data,
without consuming the context. -/
def ShadowTlsHmac.digest (h : ShadowTlsHmac) : List Nat :=
  (hmacSha1 h.key h.data).take 4

/-- ShadowTlsHmac::finalized_digest: first 4 bytes of the HMAC over the
absorbed data, consuming the context. -/
def ShadowTlsHmac.finalized_digest (h : ShadowTlsHmac) : List Nat :=
  (hmacSha1 h.key h.data).take 4

/-- An API-level trace against a context: Rust callers interleave
`update(data)` calls and non-consuming `digest()` calls. -/
inductive HmacOp where
  | upd (d : List Nat)
  | dig
deriving DecidableEq

/-- Run a trace of context operations, returning the final context and
the list of tags the `digest()` calls returned, in order. -/
def runOps (h : ShadowTlsHmac) : List HmacOp → ShadowTlsHmac × List (List Nat)
  | [] => (h, [])
  | HmacOp.upd d :: rest => runOps (h.update d) rest
  | HmacOp.dig :: rest =>
    let r := runOps h rest
    (r.1, h.digest :: r.2)

/-! ## TLS record constants (shadow_tls_server_handler.rs) -/

def TLS_HEADER_LEN : Nat := 5

def TLS_FRAME_MAX_LEN : Nat := TLS_HEADER_LEN + 65535

def CONTENT_TYPE_HANDSHAKE : Nat := 0x16

def CONTENT_TYPE_APPLICATION_DATA : Nat := 0x17

def HANDSHAKE_TYPE_SERVER_HELLO : Nat := 0x02

def RETRY_REQUEST_RANDOM_BYTES : List Nat :=
  [0xCF, 0x21, 0xAD, 0x74, 0xE5, 0x9A, 0x61, 0x11, 0xBE, 0x1D, 0x8C, 0x02,
   0x1E, 0x65, 0xB8, 0x91, 0xC2, 0xA2, 0x11, 0x16, 0x7A, 0xBB, 0x8C, 0x5E,
   0x07, 0x9E, 0x09, 0xE2, 0xC8, 0xA8, 0x33, 0x9C]

/-- A 16-bit quantity as two big-endian bytes (u16::to_be_bytes). -/
def be16 (n : Nat) : List Nat := [(n >>> 8) % 256, n % 256]

/-- One TLS record as read off a stream: the content type, the two
legacy version bytes of the header, and the payload whose length the
header declared (so the length field equals `payload.length`). -/
structure TlsFrame where
  ct : Nat
  vmaj : Nat
  vmin : Nat
  payload : List Nat
deriving DecidableEq

/-- The raw bytes of a record as the source reassembles them
(header bytes followed by payload bytes). -/
def rawFrame (f : TlsFrame) : List Nat :=
  [f.ct, f.vmaj, f.vmin] ++ be16 f.payload.length ++ f.payload

/-! ## ParsedClientHello and the checks of setup_shadowtls_server_stream -/

/-- The fields of ParsedClientHello that the setup checks consume.  The
digest triple is (tag bytes, digest_start_index, digest_end_index); the
buffered reader state and SNI are irrelevant to the checks and omitted. -/
structure ParsedClientHello where
  client_hello_frame : List Nat
  record_version_major : Nat
  record_version_minor : Nat
  content_version_major : Nat
  content_version_minor : Nat
  parsed_digest : Option (List Nat × Nat × Nat)
  supports_tls13 : Bool

/-- The validation pipeline of setup_shadowtls_server_stream
(shadow_tls_server_handler.rs lines 116-187), up to the point where a
handshake variant is entered: missing 32-byte session id, TLS 1.3
support, record version 3.1, content version 3.3, then the HMAC tag
check over the frame with the tag bytes zeroed.  `.ok ()` means the
frame is accepted and the handshake proceeds; every `.error` is
returned before any byte is forwarded anywhere. -/
def setupVerifyClientHello (initial_hmac : ShadowTlsHmac) (p : ParsedClientHello) :
    Except String Unit :=
  match p.parsed_digest with
  | none => .error "client did not send a 32-byte session id"
  | some (client_hello_digest, dstart, dend) =>
    if ¬ p.supports_tls13 then
      .error "client does not support TLS1.3"
    else if p.record_version_major ≠ 3 ∨ p.record_version_minor ≠ 1 then
      .error "expected client TLS record protocol 1.0 (major/minor 3.1)"
    else if p.content_version_major ≠ 3 ∨ p.content_version_minor ≠ 3 then
      .error "expected client TLS content protocol 1.2 (major/minor 3.3)"
    else
      let hmac_client_hello :=
        ((initial_hmac.update
            ((p.client_hello_frame.drop TLS_HEADER_LEN).take (dstart - TLS_HEADER_LEN))).update
          [0, 0, 0, 0]).update (p.client_hello_frame.drop dend)
      if client_hello_digest ≠ hmac_client_hello.finalized_digest then
        .error "hmac tag mismatch"
      else .ok ()

/-! ## ClientHello extension walk (read_client_hello, lines 363-408)

The source iterates over the extension bytes with a BufReader.  The
in-memory BufReader (src/buf_reader.rs) is not among the provided
sources; its reads are modelled from the spec: a read of n bytes either
yields the next n bytes or fails when fewer remain.  The loop below is
the literal extension walk: SNI extension 0x0000 (duplicate and
name-type checks), supported_versions extension 0x002b (sets the
TLS 1.3 flag when the 2-byte version list contains 0x0304), all other
extensions skipped by their declared length.  SNI strings are kept as
byte lists.  The fuel argument only bounds recursion depth; each
iteration consumes at least 4 bytes, so `bytes.length` is always
enough. -/

/-- The scan of the supported_versions list: pairs of bytes in order,
set the flag on the first pair equal to (3, 4) (the source loop over
`version_list_bytes` with step 2). -/
def hasTls13Pair : List Nat → Bool
  | v0 :: v1 :: rest => if v0 = 3 ∧ v1 = 4 then true else hasTls13Pair rest
  | _ => false

/-- Fuelled worker for `clientExtLoop`. -/
def clientExtLoopAux : Nat → List Nat → Option (List Nat) → Bool →
    Except String (Option (List Nat) × Bool)
  | _, [], sni, tls13 => .ok (sni, tls13)
  | 0, _ :: _, _, _ => .error "extension walk fuel exhausted"
  | fuel + 1, t1 :: t2 :: l1 :: l2 :: rest, sni, tls13 =>
    if t1 * 256 + t2 = 0x0000 then
      if sni.isSome then .error "multiple server names"
      else
        match rest with
        | _s1 :: _s2 :: server_name_type :: rest2 =>
          if server_name_type ≠ 0 then
            .error "expected server name type to be hostname (0)"
          else
            match rest2 with
            | n1 :: n2 :: rest3 =>
              let name_len := n1 * 256 + n2
              if rest3.length < name_len then .error "read beyond buffer"
              else clientExtLoopAux fuel (rest3.drop name_len) (some (rest3.take name_len)) tls13
            | _ => .error "read beyond buffer"
        | _ => .error "read beyond buffer"
    else if t1 * 256 + t2 = 0x002b then
      match rest with
      | version_list_len :: rest2 =>
        if version_list_len % 2 ≠ 0 then .error "invalid odd version list length"
        else if rest2.length < version_list_len then .error "read beyond buffer"
        else
          clientExtLoopAux fuel (rest2.drop version_list_len) sni
            (if hasTls13Pair (rest2.take version_list_len) then true else tls13)
      | [] => .error "read beyond buffer"
    else
      if rest.length < l1 * 256 + l2 then .error "read beyond buffer"
      else clientExtLoopAux fuel (rest.drop (l1 * 256 + l2)) sni tls13
  | _ + 1, _, _, _ => .error "read beyond buffer"

/-- The ClientHello extension walk over the extension bytes, starting
with no SNI seen and the TLS 1.3 flag unset. -/
def clientExtLoop (bytes : List Nat) (sni : Option (List Nat)) (tls13 : Bool) :
    Except String (Option (List Nat) × Bool) :=
  clientExtLoopAux bytes.length bytes sni tls13

/-! ## parse_server_hello (lines 432-582)

The function indexes the frame at fixed offsets without prior length
checks (the source comments claim the caller read a full frame, but the
frame it indexes as far as offset 80 may be shorter).  An out-of-bounds
Rust index or slice panics; the model returns `.crashed` there. -/

inductive ServerHelloResult where
  | ok (server_random : List Nat)
  | err (msg : String)
  | crashed
deriving DecidableEq

/-- Fuelled worker for the ServerHello extension walk (lines 532-572). -/
def walkServerExtsAux : Nat → List Nat → Bool → Except String Bool
  | _, [], has => .ok has
  | 0, _ :: _, _ => .error "extension walk fuel exhausted"
  | fuel + 1, t1 :: t2 :: l1 :: l2 :: rest, has =>
    if t1 * 256 + t2 = 0x002b then
      match rest with
      | v0 :: v1 :: rest2 =>
        if v0 ≠ 3 ∧ v1 ≠ 4 then
          .error "expected server supported version to be TLS 1.3 (0x0304)"
        else walkServerExtsAux fuel rest2 true
      | _ => .error "failed to read supported version from ServerHello"
    else
      if rest.length < l1 * 256 + l2 then .error "failed to skip extension in ServerHello"
      else walkServerExtsAux fuel (rest.drop (l1 * 256 + l2)) has
  | _ + 1, _, _ => .error "failed to read extension type or length from ServerHello"

/-- The ServerHello extension walk. -/
def walkServerExts (bytes : List Nat) (has : Bool) : Except String Bool :=
  walkServerExtsAux bytes.length bytes has

/-- parse_server_hello: content type, header version 3.3, handshake type
ServerHello, message length consistency, inner version 3.3, 32-byte
server_random (rejecting the HelloRetryRequest sentinel), session id
length 32, then the extension walk requiring a supported_versions
extension.  Fixed-offset reads that fall outside the frame are
`.crashed` (a Rust index panic). -/
def parse_server_hello (frame : List Nat) : ServerHelloResult :=
  match frame.get? 0 with
  | none => .crashed
  | some server_content_type =>
    if server_content_type ≠ CONTENT_TYPE_HANDSHAKE then .err "expected server handshake"
    else
      match frame.get? 1, frame.get? 2 with
      | some vmaj, some vmin =>
        if vmaj ≠ 3 ∨ vmin ≠ 3 then .err "unexpected server TLS version"
        else
          match frame.get? 3, frame.get? 4 with
          | some p1, some p2 =>
            let server_payload_len := p1 * 256 + p2
            match frame.get? 5 with
            | none => .crashed
            | some handshake_type =>
              if handshake_type ≠ HANDSHAKE_TYPE_SERVER_HELLO then .err "expected ServerHello"
              else
                match frame.get? 6, frame.get? 7, frame.get? 8 with
                | some m1, some m2, some m3 =>
                  let server_hello_message_len := (m1 * 256 + m2) * 256 + m3
                  if server_hello_message_len + 4 ≠ server_payload_len then
                    .err "server hello message length mismatch"
                  else
                    match frame.get? 9, frame.get? 10 with
                    | some w1, some w2 =>
                      if w1 ≠ 3 ∨ w2 ≠ 3 then
                        .err "expected TLS 1.2 (major/minor 3.3)"
                      else if frame.length < 43 then .crashed
                      else
                        let server_random := (frame.drop 11).take 32
                        if server_random = RETRY_REQUEST_RANDOM_BYTES then
                          .err "server sent a HelloRetryRequest"
                        else
                          match frame.get? 43 with
                          | none => .crashed
                          | some sid_len =>
                            if sid_len ≠ 32 then .err "expected session id len 32"
                            else
                              match frame.get? 79, frame.get? 80 with
                              | some e1, some e2 =>
                                let server_extensions_len := e1 * 256 + e2
                                if frame.length < 81 + server_extensions_len then
                                  .err "server hello message too short for extensions"
                                else
                                  match walkServerExts ((frame.drop 81).take server_extensions_len)
                                      false with
                                  | .error m => .err m
                                  | .ok has =>
                                    if has then .ok server_random
                                    else .err "server did not have supported versions extension"
                              | _, _ => .crashed
                    | _, _ => .crashed
                | _, _, _ => .crashed
          | _, _ => .crashed
      | _, _ => .crashed

/-! ## Server-to-client re-framing during the handshake

Lines 719-742 (remote variant); lines 958-999 of the local variant
perform the identical per-record transformation on its buffer.  The
frame is edited in place: payload XOR-masked cyclically with the key,
extended by 4 bytes, payload shifted up by 4 (copy_within), the 4-byte
digest of the rolling server context over the XOR-ed payload written
after the header, and the length field replaced by its wrapping-add
of 4.  `listSetRange` models writing a slice at an offset
(copy_from_slice / copy_within destinations). -/

/-- Write `vals` into `l` starting at `start` (models an in-place
slice assignment of that range). -/
def listSetRange (l : List Nat) (start : Nat) (vals : List Nat) : List Nat :=
  l.take start ++ vals ++ l.drop (start + vals.length)

/-- Fuelled cyclic XOR against `key`, starting at key offset `i`. -/
def xorMaskFrom (key : List Nat) : Nat → List Nat → List Nat
  | _, [] => []
  | i, b :: rest => (b ^^^ key.getD (i % key.length) 0) :: xorMaskFrom key (i + 1) rest

/-- XOR a payload cyclically with a key
(`iter_mut().zip(key.iter().cycle())`; an empty key leaves the payload
unchanged, as an empty cycled iterator ends the zip at once). -/
def xorMask (key p : List Nat) : List Nat := xorMaskFrom key 0 p

/-- One server-to-client record during the handshake phase, acting on
the rolling context `hmac_server_random` and returning the bytes
written to the client together with the updated rolling context.
ApplicationData records are size-checked against
`TLS_FRAME_MAX_LEN - 4`, XOR-masked, shifted, tagged and re-lengthed;
all other records are forwarded unmodified. -/
def serverFrameStep (hmac_server_random : ShadowTlsHmac) (server_app_data_xor : List Nat)
    (f : TlsFrame) : Except String (List Nat × ShadowTlsHmac) :=
  let server_payload_size := f.payload.length
  if f.ct = CONTENT_TYPE_APPLICATION_DATA then
    if server_payload_size > TLS_FRAME_MAX_LEN - 4 then
      .error "server payload too large to modify"
    else
      let frame1 := [f.ct, f.vmaj, f.vmin] ++ be16 server_payload_size ++
        xorMask server_app_data_xor f.payload ++ [0, 0, 0, 0]
      let frame2 := listSetRange frame1 (TLS_HEADER_LEN + 4)
        ((frame1.drop TLS_HEADER_LEN).take server_payload_size)
      let hmac1 := hmac_server_random.update
        ((frame2.drop (TLS_HEADER_LEN + 4)).take server_payload_size)
      let frame3 := listSetRange frame2 TLS_HEADER_LEN hmac1.digest
      let frame4 := listSetRange frame3 3 (be16 ((server_payload_size + 4) % 65536))
      .ok (frame4, hmac1)
  else .ok (rawFrame f, hmac_server_random)

/-! ## Client-to-server records: transition recognition

Lines 756-823 (remote variant); lines 1020-1054 of the local variant
run the identical recognition on each client record (the local variant
feeds non-matching records to the embedded TLS machine instead of
forwarding them).  An ApplicationData record whose payload is shorter
than 4 bytes makes the source slice `payload[4..]` out of bounds: a
Rust panic, modelled as `.crashed`. -/

inductive ClientLoopResult where
  | transition (forwarded : List (List Nat)) (initial_data : List Nat)
      (hmac_client_data : ShadowTlsHmac) (rest : List TlsFrame)
  | allForwarded (forwarded : List (List Nat))
  | crashed (forwarded : List (List Nat))
deriving DecidableEq

/-- Record a frame as forwarded before the rest of the loop outcome. -/
def ClientLoopResult.push (g : List Nat) : ClientLoopResult → ClientLoopResult
  | .transition fwd init hc rest => .transition (g :: fwd) init hc rest
  | .allForwarded fwd => .allForwarded (g :: fwd)
  | .crashed fwd => .crashed (g :: fwd)

/-- The pre-transition client-to-server loop over the records of that
direction, with rolling context `hmac_client_data`.  For an
ApplicationData record, a clone of the context absorbs the payload
after the first 4 bytes and its finalized digest is compared with the
first 4 payload bytes; on a match the loop ends in a transition whose
initial covert data is the payload after the tag and whose rolling
context has absorbed that data and then a fresh digest of itself.
Any other record is forwarded whole and unchanged. -/
def clientLoop (hc : ShadowTlsHmac) : List TlsFrame → ClientLoopResult
  | [] => .allForwarded []
  | f :: fs =>
    if f.ct = CONTENT_TYPE_APPLICATION_DATA then
      if f.payload.length < 4 then .crashed []
      else if (hc.update (f.payload.drop 4)).finalized_digest = f.payload.take 4 then
        let hc1 := hc.update (f.payload.drop 4)
        .transition [] (f.payload.drop 4) (hc1.update hc1.digest) fs
      else (clientLoop hc fs).push (rawFrame f)
    else (clientLoop hc fs).push (rawFrame f)

/-- A record the recognition step accepts under context `hc`. -/
def matchesTransition (hc : ShadowTlsHmac) (f : TlsFrame) : Prop :=
  f.ct = CONTENT_TYPE_APPLICATION_DATA ∧
    (hc.update (f.payload.drop 4)).finalized_digest = f.payload.take 4

instance (hc : ShadowTlsHmac) (f : TlsFrame) : Decidable (matchesTransition hc f) :=
  inferInstanceAs (Decidable (_ ∧ _))

/-- Modelled from the spec: the rolling-context update the spec text
prescribes at a transition, "absorb those 4 bytes plus a fresh
H_c.digest() into the rolling context", where "those 4 bytes" are the
first 4 payload bytes (the tag).  Stated for comparison with the update
the source performs. -/
def specTransitionHmacUpdate (hc : ShadowTlsHmac) (payload : List Nat) : ShadowTlsHmac :=
  let h1 := hc.update (payload.take 4)
  h1.update h1.digest

/-! ## Concrete inputs used by witnesses and counterexamples -/

def pwC1 : List Nat := [1]

/-- A minimal well-formed-enough ClientHello frame image: handshake
header with record version 3.1, 20 payload bytes. -/
def frameC1 : List Nat := [22, 3, 1, 0, 20] ++ List.replicate 20 9

/-- The correct tag for `frameC1` with the candidate at bytes 9..13. -/
def tagC1 : List Nat :=
  (hmacSha1 pwC1 ((frameC1.drop 5).take 4 ++ [0, 0, 0, 0] ++ frameC1.drop 13)).take 4

/-- A parsed hello carrying the correct tag and supporting TLS 1.3. -/
def pC1ok : ParsedClientHello := ⟨frameC1, 3, 1, 3, 3, some (tagC1, 9, 13), true⟩

/-- The same parsed hello, except the client does not offer TLS 1.3. -/
def pC1cx : ParsedClientHello := ⟨frameC1, 3, 1, 3, 3, some (tagC1, 9, 13), false⟩

def hcC2 : ShadowTlsHmac := ShadowTlsHmac.new [107]

def tagC2 : List Nat := hcC2.digest

/-- A handshake record: forwarded unchanged by the client loop. -/
def fC2non : TlsFrame := ⟨22, 3, 3, [1, 2, 3]⟩

/-- A matching transition record: its 4-byte payload is exactly the
current rolling tag (so the covert data is empty). -/
def fC2match : TlsFrame := ⟨23, 3, 3, tagC2⟩

def srC3 : List Nat := List.replicate 32 2

/-- The rolling handshake-phase server context: H0 fed server_random. -/
def hsrC3 : ShadowTlsHmac := (ShadowTlsHmac.new [1]).update srC3

/-- The spec's H_s: H0 fed server_random and then the label "S" (0x53). -/
def hsC3 : ShadowTlsHmac := hsrC3.update [83]

/-- An ApplicationData record whose payload length 65533 makes the
length field wrap when 4 is added. -/
def fC4 : TlsFrame := ⟨23, 3, 3, List.replicate 65533 0⟩

/-- A ServerHello frame whose supported_versions extension carries
0x0305 instead of 0x0304. -/
def frameC5a : List Nat :=
  [22, 3, 3, 0, 82] ++ [2, 0, 0, 78, 3, 3] ++ List.replicate 32 1 ++ [32] ++
    List.replicate 32 0 ++ [0, 1, 0] ++ [0, 6] ++ [0, 0x2b, 0, 2, 3, 5]

/-- A ServerHello frame whose supported_versions extension carries
0x0204 instead of 0x0304. -/
def frameC5b : List Nat :=
  [22, 3, 3, 0, 82] ++ [2, 0, 0, 78, 3, 3] ++ List.replicate 32 1 ++ [32] ++
    List.replicate 32 0 ++ [0, 1, 0] ++ [0, 6] ++ [0, 0x2b, 0, 2, 2, 4]

def hcC6 : ShadowTlsHmac := ShadowTlsHmac.new [106]

def tagC6 : List Nat := hcC6.digest

/-- A matching transition record whose payload is exactly the tag. -/
def fC6 : TlsFrame := ⟨23, 3, 3, tagC6⟩

/-- A parsed hello with a 32-byte-session-id digest but no TLS 1.3. -/
def pC7w : ParsedClientHello := ⟨[22, 3, 1, 0, 0], 3, 1, 3, 3, some ([0, 0, 0, 0], 9, 13), false⟩

/-- A parsed hello with no 32-byte session id and no TLS 1.3. -/
def pC7cx : ParsedClientHello := ⟨[22, 3, 1, 0, 0], 3, 1, 3, 3, none, false⟩

/-- A 50-byte frame: valid handshake header, ServerHello type, message
length consistent with the declared 45-byte payload, non-HRR random and
session id length 32, but too short for the fixed-offset reads at
bytes 79 and 80. -/
def frameC10 : List Nat :=
  [22, 3, 3, 0, 45] ++ [2, 0, 0, 41, 3, 3] ++ List.replicate 32 1 ++ [32] ++
    List.replicate 6 0

/-! ## Helper lemmas -/

lemma length_sha1Compress (h block : List Nat) : (sha1Compress h block).length = 5 := rfl

lemma length_foldl_sha1Compress :
    ∀ (bs : List (List Nat)) (h : List Nat), h.length = 5 →
      (bs.foldl sha1Compress h).length = 5 := by
  intro bs
  induction bs with
  | nil => intro h hh; simpa using hh
  | cons b rest ih => intro h _; exact ih _ (length_sha1Compress h b)

lemma length_flatten_map_wordBytes (l : List Nat) :
    ((l.map wordBytes).flatten).length = 4 * l.length := by
  induction l with
  | nil => simp
  | cons a rest ih =>
    simp only [List.map_cons, List.flatten_cons, List.length_append, ih, List.length_cons]
    simp [wordBytes]; ring

lemma length_sha1 (msg : List Nat) : (sha1 msg).length = 20 := by
  unfold sha1
  rw [length_flatten_map_wordBytes, length_foldl_sha1Compress _ _ (by simp)]

lemma length_hmacSha1 (key msg : List Nat) : (hmacSha1 key msg).length = 20 := by
  unfold hmacSha1
  exact length_sha1 _

lemma length_digest (h : ShadowTlsHmac) : h.digest.length = 4 := by
  simp [ShadowTlsHmac.digest, List.length_take, length_hmacSha1]

lemma length_finalized_digest (h : ShadowTlsHmac) : h.finalized_digest.length = 4 := by
  simp [ShadowTlsHmac.finalized_digest, List.length_take, length_hmacSha1]

lemma finalized_digest_eq_digest (h : ShadowTlsHmac) : h.finalized_digest = h.digest := rfl

lemma update_key (h : ShadowTlsHmac) (d : List Nat) : (h.update d).key = h.key := rfl

lemma update_data (h : ShadowTlsHmac) (d : List Nat) : (h.update d).data = h.data ++ d := rfl

lemma update_update (h : ShadowTlsHmac) (d e : List Nat) :
    (h.update d).update e = h.update (d ++ e) := by
  simp [ShadowTlsHmac.update, List.append_assoc]

lemma update_nil (h : ShadowTlsHmac) : h.update [] = h := by
  simp [ShadowTlsHmac.update]

lemma foldl_update (h : ShadowTlsHmac) :
    ∀ slices : List (List Nat),
      slices.foldl ShadowTlsHmac.update h = h.update slices.flatten := by
  intro slices
  induction slices generalizing h with
  | nil => simp [update_nil]
  | cons s rest ih => simp [List.foldl_cons, ih, update_update]

lemma runOps_append (h : ShadowTlsHmac) (l1 l2 : List HmacOp) :
    runOps h (l1 ++ l2) =
      ((runOps (runOps h l1).1 l2).1,
        (runOps h l1).2 ++ (runOps (runOps h l1).1 l2).2) := by
  induction l1 generalizing h with
  | nil => simp [runOps]
  | cons op rest ih =>
    cases op with
    | upd d => simp [runOps, ih]
    | dig => simp [runOps, ih]

lemma length_xorMaskFrom (key : List Nat) :
    ∀ (i : Nat) (p : List Nat), (xorMaskFrom key i p).length = p.length := by
  intro i p
  induction p generalizing i with
  | nil => rfl
  | cons b rest ih => simp [xorMaskFrom, ih]

lemma length_xorMask (key p : List Nat) : (xorMask key p).length = p.length :=
  length_xorMaskFrom key 0 p

lemma take_append_left' {α : Type} {l₁ l₂ : List α} {n : Nat} (h : n ≤ l₁.length) :
    (l₁ ++ l₂).take n = l₁.take n := by
  rw [List.take_append_eq_append_take, Nat.sub_eq_zero_of_le h, List.take_zero, List.append_nil]

lemma drop_append_left' {α : Type} {l₁ l₂ : List α} {n : Nat} (h : n ≤ l₁.length) :
    (l₁ ++ l₂).drop n = l₁.drop n ++ l₂ := by
  rw [List.drop_append_eq_append_drop, Nat.sub_eq_zero_of_le h, List.drop_zero]

lemma serverReframe_core (A b2 x nb : List Nat) (L : Nat) (hsr : ShadowTlsHmac)
    (hA : A.length = 3) (hb2 : b2.length = 2) (hx : x.length = L) (hnb : nb.length = 2) :
    (listSetRange
       (listSetRange
         (listSetRange (A ++ b2 ++ x ++ [0, 0, 0, 0]) (TLS_HEADER_LEN + 4)
           (((A ++ b2 ++ x ++ [0, 0, 0, 0]).drop TLS_HEADER_LEN).take L))
         TLS_HEADER_LEN
         (ShadowTlsHmac.digest (hsr.update
           (((listSetRange (A ++ b2 ++ x ++ [0, 0, 0, 0]) (TLS_HEADER_LEN + 4)
               (((A ++ b2 ++ x ++ [0, 0, 0, 0]).drop TLS_HEADER_LEN).take L)).drop
             (TLS_HEADER_LEN + 4)).take L))))
       3 nb,
     hsr.update
       (((listSetRange (A ++ b2 ++ x ++ [0, 0, 0, 0]) (TLS_HEADER_LEN + 4)
           (((A ++ b2 ++ x ++ [0, 0, 0, 0]).drop TLS_HEADER_LEN).take L)).drop
         (TLS_HEADER_LEN + 4)).take L))
    = (A ++ nb ++ (hsr.update x).digest ++ x, hsr.update x) := by
  simp only [TLS_HEADER_LEN]
  have hAb : (A ++ b2).length = 5 := by simp [hA, hb2]
  have e1 : ((A ++ b2 ++ x ++ [0, 0, 0, 0]).drop 5).take L = x := by
    rw [drop_append_left' (by simp only [List.length_append, hA, hb2]; omega),
      drop_append_left' (by simp only [List.length_append, hA, hb2]; omega),
      List.drop_eq_nil_of_le (le_of_eq hAb), List.nil_append, List.take_left' hx]
  rw [e1]
  have hF1len : (A ++ b2 ++ x ++ [0, 0, 0, 0]).length = L + 9 := by
    simp [hA, hb2, hx]; omega
  have e2 : listSetRange (A ++ b2 ++ x ++ [0, 0, 0, 0]) (5 + 4) x =
      (A ++ b2 ++ x ++ [0, 0, 0, 0]).take 9 ++ x := by
    unfold listSetRange
    rw [List.drop_eq_nil_of_le (by rw [hF1len, hx]; omega), List.append_nil]
  rw [e2]
  have h9 : ((A ++ b2 ++ x ++ [0, 0, 0, 0]).take 9).length = 9 := by
    rw [List.length_take, hF1len]; omega
  have e3 : (((A ++ b2 ++ x ++ [0, 0, 0, 0]).take 9 ++ x).drop (5 + 4)).take L = x := by
    rw [List.drop_left' h9, List.take_of_length_le (le_of_eq hx)]
  rw [e3]
  have htk5 : ((A ++ b2 ++ x ++ [0, 0, 0, 0]).take 9 ++ x).take 5 = A ++ b2 := by
    rw [take_append_left' (by omega), List.take_take]
    have : min 5 9 = 5 := by omega
    rw [this, take_append_left' (by simp [hAb]; omega), take_append_left' (by simp [hAb]),
      List.take_of_length_le (le_of_eq hAb)]
  have e4 : listSetRange ((A ++ b2 ++ x ++ [0, 0, 0, 0]).take 9 ++ x) 5
      ((hsr.update x).digest) = (A ++ b2) ++ (hsr.update x).digest ++ x := by
    unfold listSetRange
    rw [length_digest, htk5, List.drop_left' h9]
  rw [e4]
  have e5 : listSetRange ((A ++ b2) ++ (hsr.update x).digest ++ x) 3 nb =
      A ++ nb ++ (hsr.update x).digest ++ x := by
    unfold listSetRange
    rw [hnb]
    rw [take_append_left' (by simp only [List.length_append, hA, hb2, length_digest]; omega),
      take_append_left' (by simp only [List.length_append, hA, hb2]; omega),
      take_append_left' (by simp only [hA]; omega), List.take_of_length_le (le_of_eq hA)]
    rw [drop_append_left' (by simp only [List.length_append, hA, hb2, length_digest]; omega),
      List.drop_left' (show (A ++ b2).length = 3 + 2 by rw [hAb])]
    simp [List.append_assoc]
  rw [e5]

/-- The net effect of the ApplicationData re-framing (remote variant
lines 719-742, local variant lines 958-999): the emitted record is the
original header with the length field wrapping-incremented by 4,
followed by a 4-byte digest of the rolling server context over the
XOR-masked payload, followed by the XOR-masked payload; the rolling
context has absorbed the XOR-masked payload. -/
lemma serverFrameStep_appdata (hsr : ShadowTlsHmac) (key : List Nat) (f : TlsFrame)
    (hct : f.ct = CONTENT_TYPE_APPLICATION_DATA) (hL : f.payload.length ≤ 65535) :
    serverFrameStep hsr key f =
      .ok ([f.ct, f.vmaj, f.vmin] ++ be16 ((f.payload.length + 4) % 65536) ++
            (hsr.update (xorMask key f.payload)).digest ++ xorMask key f.payload,
          hsr.update (xorMask key f.payload)) := by
  have hguard : ¬ (f.payload.length > TLS_FRAME_MAX_LEN - 4) := by
    simp only [TLS_FRAME_MAX_LEN, TLS_HEADER_LEN]; omega
  unfold serverFrameStep
  rw [if_pos hct, if_neg hguard]
  exact congrArg Except.ok
    (serverReframe_core [f.ct, f.vmaj, f.vmin] (be16 f.payload.length)
      (xorMask key f.payload) (be16 ((f.payload.length + 4) % 65536)) f.payload.length hsr
      rfl rfl (length_xorMask key f.payload) rfl)

/-- Non-ApplicationData records pass through the handshake tee
unmodified. -/
lemma serverFrameStep_other (hsr : ShadowTlsHmac) (key : List Nat) (f : TlsFrame)
    (hct : f.ct ≠ CONTENT_TYPE_APPLICATION_DATA) :
    serverFrameStep hsr key f = .ok (rawFrame f, hsr) := by
  unfold serverFrameStep
  rw [if_neg hct]

lemma clientLoop_cons_match (hc : ShadowTlsHmac) (f : TlsFrame) (fs : List TlsFrame)
    (h1 : f.ct = CONTENT_TYPE_APPLICATION_DATA) (h2 : 4 ≤ f.payload.length)
    (h3 : (hc.update (f.payload.drop 4)).finalized_digest = f.payload.take 4) :
    clientLoop hc (f :: fs) =
      .transition [] (f.payload.drop 4)
        ⟨hc.key, hc.data ++ f.payload.drop 4 ++ f.payload.take 4⟩ fs := by
  unfold clientLoop
  rw [if_pos h1, if_neg (by omega), if_pos h3]
  have hd : (hc.update (f.payload.drop 4)).digest = f.payload.take 4 := h3
  dsimp only
  rw [hd]
  rfl

lemma clientLoop_cons_nomatch (hc : ShadowTlsHmac) (f : TlsFrame) (fs : List TlsFrame)
    (h : ¬ matchesTransition hc f)
    (hlen : f.ct = CONTENT_TYPE_APPLICATION_DATA → 4 ≤ f.payload.length) :
    clientLoop hc (f :: fs) = (clientLoop hc fs).push (rawFrame f) := by
  simp only [clientLoop]
  by_cases hct : f.ct = CONTENT_TYPE_APPLICATION_DATA
  · rw [if_pos hct, if_neg (by have := hlen hct; omega),
      if_neg (fun hd => h ⟨hct, hd⟩)]
  · rw [if_neg hct]

lemma clientLoop_cons_crash (hc : ShadowTlsHmac) (f : TlsFrame) (fs : List TlsFrame)
    (hct : f.ct = CONTENT_TYPE_APPLICATION_DATA) (hlen : f.payload.length < 4) :
    clientLoop hc (f :: fs) = .crashed [] := by
  unfold clientLoop
  rw [if_pos hct, if_pos hlen]

/-- The pre-transition client loop ends in a transition exactly at the
first matching ApplicationData record; everything before it is
forwarded raw and unchanged, the initial covert data is the matching
payload after the tag, and the rolling context has absorbed that data
followed by the matched tag. -/
lemma clientLoop_transition_iff (hc : ShadowTlsHmac) (frames : List TlsFrame)
    (hlen : ∀ f ∈ frames, f.ct = CONTENT_TYPE_APPLICATION_DATA → 4 ≤ f.payload.length)
    (fwd : List (List Nat)) (init : List Nat) (hc' : ShadowTlsHmac) (rest : List TlsFrame) :
    clientLoop hc frames = .transition fwd init hc' rest ↔
      ∃ pre f post, frames = pre ++ f :: post ∧
        (∀ g ∈ pre, ¬ matchesTransition hc g) ∧
        matchesTransition hc f ∧
        fwd = pre.map rawFrame ∧
        init = f.payload.drop 4 ∧
        hc' = ⟨hc.key, hc.data ++ f.payload.drop 4 ++ f.payload.take 4⟩ ∧
        rest = post := by
  induction frames generalizing fwd init hc' rest with
  | nil =>
    constructor
    · intro h; simp [clientLoop] at h
    · rintro ⟨pre, f, post, habs, -⟩; cases pre <;> simp at habs
  | cons g gs ih =>
    have hleng : g.ct = CONTENT_TYPE_APPLICATION_DATA → 4 ≤ g.payload.length :=
      hlen g (by simp)
    have hlengs : ∀ f ∈ gs, f.ct = CONTENT_TYPE_APPLICATION_DATA → 4 ≤ f.payload.length :=
      fun f hf => hlen f (List.mem_cons_of_mem _ hf)
    by_cases hm : matchesTransition hc g
    · rw [clientLoop_cons_match hc g gs hm.1 (hleng hm.1) hm.2]
      constructor
      · intro h
        rw [ClientLoopResult.transition.injEq] at h
        obtain ⟨rfl, rfl, rfl, rfl⟩ := h
        exact ⟨[], g, gs, by simp, by simp, hm, by simp, rfl, rfl, rfl⟩
      · rintro ⟨pre, f, post, heq, hpre, hmf, hfwd, hinit, hhc, hrest⟩
        cases pre with
        | nil =>
          simp only [List.nil_append, List.cons.injEq] at heq
          obtain ⟨rfl, rfl⟩ := heq
          simp [hfwd, hinit, hhc, hrest]
        | cons p ps =>
          rw [List.cons_append, List.cons.injEq] at heq
          exact absurd (heq.1 ▸ hm) (hpre p (by simp))
    · rw [clientLoop_cons_nomatch hc g gs hm hleng]
      constructor
      · intro h
        cases hr : clientLoop hc gs with
        | transition fwd1 init1 hc1 rest1 =>
          rw [hr] at h
          simp only [ClientLoopResult.push, ClientLoopResult.transition.injEq] at h
          obtain ⟨rfl, rfl, rfl, rfl⟩ := h
          obtain ⟨pre, f, post, heq, hpre, hmf, hfwd, hinit, hhc, hrest⟩ := (ih hlengs _ _ _ _).mp hr
          refine ⟨g :: pre, f, post, by simp [heq], ?_, hmf, by simp [hfwd], hinit, hhc, hrest⟩
          intro q hq
          rcases List.mem_cons.mp hq with hq | hq
          · exact hq ▸ hm
          · exact hpre q hq
        | allForwarded fwd1 =>
          rw [hr] at h; simp [ClientLoopResult.push] at h
        | crashed fwd1 =>
          rw [hr] at h; simp [ClientLoopResult.push] at h
      · rintro ⟨pre, f, post, heq, hpre, hmf, hfwd, hinit, hhc, hrest⟩
        cases pre with
        | nil =>
          simp only [List.nil_append, List.cons.injEq] at heq
          obtain ⟨rfl, -⟩ := heq
          exact absurd hmf hm
        | cons p ps =>
          rw [List.cons_append, List.cons.injEq] at heq
          obtain ⟨hgp, hgs⟩ := heq
          have hrec : clientLoop hc gs = .transition (ps.map rawFrame) init hc' rest :=
            (ih hlengs _ _ _ _).mpr
              ⟨ps, f, post, hgs, fun q hq => hpre q (List.mem_cons_of_mem _ hq), hmf,
                rfl, hinit, hhc, hrest⟩
          rw [hrec]
          simp only [ClientLoopResult.push, ClientLoopResult.transition.injEq]
          refine ⟨?_, trivial, trivial, trivial⟩
          rw [hfwd, List.map_cons, hgp]

lemma hasTls13Pair_iff (vb : List Nat) :
    hasTls13Pair vb = true ↔
      ∃ i, i % 2 = 0 ∧ vb.get? i = some 3 ∧ vb.get? (i + 1) = some 4 := by
  have key : ∀ (n : Nat) (l : List Nat), l.length ≤ n →
      (hasTls13Pair l = true ↔
        ∃ i, i % 2 = 0 ∧ l.get? i = some 3 ∧ l.get? (i + 1) = some 4) := by
    intro n
    induction n with
    | zero =>
      intro l hl
      have : l = [] := List.eq_nil_of_length_eq_zero (Nat.le_zero.mp hl)
      subst this
      simp [hasTls13Pair]
    | succ n ih =>
      intro l hl
      match l with
      | [] => simp [hasTls13Pair]
      | [v] =>
        simp only [hasTls13Pair]
        constructor
        · intro h; cases h
        · rintro ⟨i, -, h3, h4⟩
          cases i with
          | zero => simp at h4
          | succ k => simp at h3
      | v0 :: v1 :: rest =>
        simp only [hasTls13Pair]
        by_cases h34 : v0 = 3 ∧ v1 = 4
        · rw [if_pos h34]
          simp only [true_iff]
          exact ⟨0, by omega, by simp [h34.1], by simp [h34.2]⟩
        · rw [if_neg h34]
          have hrest : rest.length ≤ n := by simp at hl; omega
          rw [ih rest hrest]
          constructor
          · rintro ⟨i, hi, h3, h4⟩
            exact ⟨i + 2, by omega, by simpa using h3, by simpa using h4⟩
          · rintro ⟨i, hi, h3, h4⟩
            obtain - | - | k := i
            · simp only [List.get?_cons_zero, Option.some.injEq] at h3
              simp only [List.get?_cons_succ, List.get?_cons_zero, Option.some.injEq] at h4
              exact absurd ⟨h3, h4⟩ h34
            · omega
            · exact ⟨k, by omega, by simpa using h3, by simpa using h4⟩
  exact key vb.length vb le_rfl

lemma clientExtLoop_single_supported_versions (hi lo : Nat) (vb : List Nat)
    (heven : vb.length % 2 = 0) :
    clientExtLoop ([0x00, 0x2b, hi, lo, vb.length] ++ vb) none false =
      .ok (none, hasTls13Pair vb) := by
  unfold clientExtLoop
  have hlen : (([0x00, 0x2b, hi, lo, vb.length] ++ vb) : List Nat).length = vb.length + 4 + 1 := by
    simp only [List.length_append, List.length_cons, List.length_nil]; omega
  rw [hlen]
  show clientExtLoopAux (vb.length + 4 + 1)
    (0x00 :: 0x2b :: hi :: lo :: (vb.length :: vb)) none false = _
  norm_num [clientExtLoopAux, heven, List.drop_length, List.take_length]

lemma setupVerify_tls13_iff (pw : List Nat) (p : ParsedClientHello)
    (t3 : List Nat × Nat × Nat) (hd : p.parsed_digest = some t3) :
    (setupVerifyClientHello (ShadowTlsHmac.new pw) p =
        .error "client does not support TLS1.3")
      ↔ p.supports_tls13 = false := by
  unfold setupVerifyClientHello
  rw [hd]
  obtain ⟨d, ds, de⟩ := t3
  dsimp only
  cases hb : p.supports_tls13 with
  | false =>
    rw [if_pos (by simp [hb])]
    simp
  | true =>
    rw [if_neg (by simp [hb])]
    constructor
    · intro h
      exfalso
      split_ifs at h with h1 h2 h3 <;>
        first
          | exact Except.noConfusion h
          | (rw [Except.error.injEq] at h; exact absurd h (by decide))
    · intro h; cases h

/-! ## Claims -/

/-- C1 (amended): for a ParsedClientHello carrying a 32-byte-session-id
digest triple, once the checks that precede tag verification pass
(client offers TLS 1.3, record version 3.1, content version 3.3),
setup_shadowtls_server_stream accepts the frame if and only if the
candidate tag equals the first 4 bytes of HMAC-SHA1 keyed by K_mac over
frame[5..digest_start] ++ four zero bytes ++ frame[digest_end..]; on a
mismatch it returns InvalidData "hmac tag mismatch" (before any byte is
forwarded).  The original claim's "accepts if and only if" fails
without the preceding checks: see the counterexample, where a correct
tag is still rejected because supports_tls13 is false. -/
theorem C1_tag_check_amended (pw : List Nat) (p : ParsedClientHello)
    (d : List Nat) (ds de : Nat)
    (hd : p.parsed_digest = some (d, ds, de))
    (htls : p.supports_tls13 = true)
    (hrM : p.record_version_major = 3) (hrm : p.record_version_minor = 1)
    (hcM : p.content_version_major = 3) (hcm : p.content_version_minor = 3) :
    (setupVerifyClientHello (ShadowTlsHmac.new pw) p = .ok () ↔
      d = (hmacSha1 pw ((p.client_hello_frame.drop 5).take (ds - 5) ++ [0, 0, 0, 0] ++
        p.client_hello_frame.drop de)).take 4) ∧
    (d ≠ (hmacSha1 pw ((p.client_hello_frame.drop 5).take (ds - 5) ++ [0, 0, 0, 0] ++
        p.client_hello_frame.drop de)).take 4 →
      setupVerifyClientHello (ShadowTlsHmac.new pw) p = .error "hmac tag mismatch") := by
  unfold setupVerifyClientHello
  rw [hd]
  dsimp only
  rw [if_neg (by simp [htls]), if_neg (by simp [hrM, hrm]), if_neg (by simp [hcM, hcm])]
  have hctx : (((ShadowTlsHmac.new pw).update
        ((p.client_hello_frame.drop TLS_HEADER_LEN).take (ds - TLS_HEADER_LEN))).update
      [0, 0, 0, 0]).update (p.client_hello_frame.drop de) =
      (⟨pw, (p.client_hello_frame.drop 5).take (ds - 5) ++ [0, 0, 0, 0] ++
        p.client_hello_frame.drop de⟩ : ShadowTlsHmac) := by
    simp [ShadowTlsHmac.new, ShadowTlsHmac.update, TLS_HEADER_LEN]
  rw [hctx]
  have htag : (⟨pw, (p.client_hello_frame.drop 5).take (ds - 5) ++ [0, 0, 0, 0] ++
      p.client_hello_frame.drop de⟩ : ShadowTlsHmac).finalized_digest =
      (hmacSha1 pw ((p.client_hello_frame.drop 5).take (ds - 5) ++ [0, 0, 0, 0] ++
        p.client_hello_frame.drop de)).take 4 := rfl
  rw [htag]
  split_ifs with hne
  · exact ⟨⟨fun h => absurd h (by simp), fun h => absurd h hne⟩, fun _ => rfl⟩
  · exact ⟨⟨fun _ => not_not.mp hne, fun _ => rfl⟩, fun hc => absurd (not_not.mp hne) hc⟩

/-- C1 witness: a parsed hello whose candidate tag is the correct
HMAC tag, with all preceding checks passing, is accepted. -/
theorem C1_tag_check_witness :
    setupVerifyClientHello (ShadowTlsHmac.new pwC1) pC1ok = .ok () :=
  (C1_tag_check_amended pwC1 pC1ok tagC1 9 13 rfl rfl rfl rfl rfl rfl).1.mpr rfl

/-- C1 counterexample: the claim as stated ("accepts if and only if the
candidate tag equals the HMAC") is false: this parsed hello carries the
correct tag for its frame, yet the setup rejects it (with the TLS 1.3
error, checked before the tag), because supports_tls13 is false. -/
theorem C1_counterexample :
    pC1cx.parsed_digest = some (tagC1, 9, 13) ∧
    tagC1 = (hmacSha1 pwC1 ((pC1cx.client_hello_frame.drop 5).take (9 - 5) ++ [0, 0, 0, 0] ++
      pC1cx.client_hello_frame.drop 13)).take 4 ∧
    setupVerifyClientHello (ShadowTlsHmac.new pwC1) pC1cx =
      .error "client does not support TLS1.3" :=
  ⟨rfl, rfl, rfl⟩

/-- C2: in the pre-transition client-to-server loop, the transition
happens exactly at the first ApplicationData record whose first 4
payload bytes equal the finalized digest of a clone of the rolling
client context fed the payload after those 4 bytes; the remaining
payload bytes become the initial covert data, every earlier record is
forwarded to the cover server as the full unchanged frame, and the
rolling context ends having absorbed the covert data and the tag. -/
theorem C2_transition_recognition (hc : ShadowTlsHmac) (frames : List TlsFrame)
    (hlen : ∀ f ∈ frames, f.ct = CONTENT_TYPE_APPLICATION_DATA → 4 ≤ f.payload.length)
    (fwd : List (List Nat)) (init : List Nat) (hc' : ShadowTlsHmac) (rest : List TlsFrame) :
    clientLoop hc frames = .transition fwd init hc' rest ↔
      ∃ pre f post, frames = pre ++ f :: post ∧
        (∀ g ∈ pre, ¬ matchesTransition hc g) ∧
        matchesTransition hc f ∧
        fwd = pre.map rawFrame ∧
        init = f.payload.drop 4 ∧
        hc' = ⟨hc.key, hc.data ++ f.payload.drop 4 ++ f.payload.take 4⟩ ∧
        rest = post :=
  clientLoop_transition_iff hc frames hlen fwd init hc' rest

/-- C2 witness: a handshake record followed by a matching transition
record: the first is forwarded raw, the transition delivers the payload
after the tag (here empty) as initial covert data. -/
theorem C2_transition_recognition_witness :
    (∀ f ∈ [fC2non, fC2match], f.ct = CONTENT_TYPE_APPLICATION_DATA → 4 ≤ f.payload.length) ∧
    clientLoop hcC2 [fC2non, fC2match] =
      .transition [rawFrame fC2non] (tagC2.drop 4)
        ⟨hcC2.key, hcC2.data ++ tagC2.drop 4 ++ tagC2.take 4⟩ [] := by
  have hlen4 : tagC2.length = 4 := length_digest hcC2
  have hyp : ∀ f ∈ [fC2non, fC2match],
      f.ct = CONTENT_TYPE_APPLICATION_DATA → 4 ≤ f.payload.length := by
    intro f hf
    rcases List.mem_cons.mp hf with rfl | hf
    · intro h; exact absurd h (by decide)
    · rcases List.mem_cons.mp hf with rfl | hf
      · intro _; show 4 ≤ tagC2.length; omega
      · cases hf
  refine ⟨hyp, ?_⟩
  apply (C2_transition_recognition hcC2 [fC2non, fC2match] hyp _ _ _ _).mpr
  refine ⟨[fC2non], fC2match, [], rfl, ?_, ?_, rfl, rfl, rfl, rfl⟩
  · intro g hg
    rcases List.mem_cons.mp hg with rfl | hg
    · rintro ⟨hct, -⟩; exact absurd hct (by decide)
    · cases hg
  · refine ⟨rfl, ?_⟩
    show (hcC2.update (tagC2.drop 4)).finalized_digest = tagC2.take 4
    rw [show tagC2.drop 4 = [] from by rw [← hlen4]; exact List.drop_length _,
      show tagC2.take 4 = tagC2 from by rw [← hlen4]; exact List.take_length _,
      update_nil]
    rfl

/-- C3 (amended): during the handshake phase, every server-to-client
ApplicationData record is emitted with its payload XOR-masked
cyclically with X and prefixed with 4 bytes equal to the digest of the
rolling context over the XOR-ed payload, with the length field
wrapping-incremented by 4; non-ApplicationData records pass through
untouched.  The rolling context is H_sr (H0 fed server_random), not the
"S"-labelled H_s the claim names: H_s is only handed to the
post-transition stream.  See the counterexample. -/
theorem C3_reframing_amended (hsr : ShadowTlsHmac) (key : List Nat) (f : TlsFrame) :
    (f.ct = CONTENT_TYPE_APPLICATION_DATA → f.payload.length ≤ 65535 →
      serverFrameStep hsr key f =
        .ok ([f.ct, f.vmaj, f.vmin] ++ be16 ((f.payload.length + 4) % 65536) ++
              (hsr.update (xorMask key f.payload)).digest ++ xorMask key f.payload,
            hsr.update (xorMask key f.payload))) ∧
    (f.ct ≠ CONTENT_TYPE_APPLICATION_DATA →
      serverFrameStep hsr key f = .ok (rawFrame f, hsr)) :=
  ⟨fun h1 h2 => serverFrameStep_appdata hsr key f h1 h2,
   fun h => serverFrameStep_other hsr key f h⟩

/-- C3 witness: a 2-byte ApplicationData payload is XOR-masked, tagged
with the rolling context digest and re-lengthed. -/
theorem C3_reframing_witness :
    serverFrameStep (ShadowTlsHmac.new [9]) [5, 6] ⟨23, 3, 3, [7, 8]⟩ =
      .ok ([23, 3, 3] ++ be16 ((([7, 8] : List Nat).length + 4) % 65536) ++
        ((ShadowTlsHmac.new [9]).update (xorMask [5, 6] [7, 8])).digest ++
        xorMask [5, 6] [7, 8],
        (ShadowTlsHmac.new [9]).update (xorMask [5, 6] [7, 8])) :=
  (C3_reframing_amended (ShadowTlsHmac.new [9]) [5, 6] ⟨23, 3, 3, [7, 8]⟩).1 rfl (by decide)

/-- C3 counterexample: the claim as stated is false: the 4-byte prefix
written on the wire is the digest of the rolling H_sr context (H0 fed
server_random), which differs from the digest of the "S"-labelled
context H_s = H_sr fed "S" that the claim prescribes, at this concrete
record. -/
theorem C3_counterexample :
    serverFrameStep hsrC3 [0] ⟨23, 3, 3, [7]⟩ =
      .ok ([23, 3, 3] ++ be16 ((([7] : List Nat).length + 4) % 65536) ++
        (hsrC3.update (xorMask [0] [7])).digest ++ xorMask [0] [7],
        hsrC3.update (xorMask [0] [7])) ∧
    (hsrC3.update (xorMask [0] [7])).digest ≠ (hsC3.update (xorMask [0] [7])).digest := by
  refine ⟨(C3_reframing_amended hsrC3 [0] ⟨23, 3, 3, [7]⟩).1 rfl (by decide), ?_⟩
  decide

/-- C4: an ApplicationData record of payload length 65533 is not
rejected: the guard compares against TLS_FRAME_MAX_LEN - 4 = 65536,
which a 16-bit payload length can never exceed, so the record is
re-framed and its length field wraps to 1 (bytes 0x00 0x01) instead of
the "server payload too large to modify" error the claim and the spec
require. -/
theorem C4_oversize_not_rejected (hsr : ShadowTlsHmac) (key : List Nat) (f : TlsFrame)
    (hct : f.ct = CONTENT_TYPE_APPLICATION_DATA) (hL : f.payload.length = 65533) :
    serverFrameStep hsr key f =
      .ok ([f.ct, f.vmaj, f.vmin] ++ [0, 1] ++
            (hsr.update (xorMask key f.payload)).digest ++ xorMask key f.payload,
          hsr.update (xorMask key f.payload)) := by
  rw [serverFrameStep_appdata hsr key f hct (by omega), hL,
    show be16 ((65533 + 4) % 65536) = [0, 1] from by decide]

/-- C4 witness: the dead guard at the concrete 65533-byte record. -/
theorem C4_oversize_not_rejected_witness :
    fC4.ct = CONTENT_TYPE_APPLICATION_DATA ∧ fC4.payload.length = 65533 ∧
    serverFrameStep (ShadowTlsHmac.new [1]) [0] fC4 =
      .ok ([fC4.ct, fC4.vmaj, fC4.vmin] ++ [0, 1] ++
            ((ShadowTlsHmac.new [1]).update (xorMask [0] fC4.payload)).digest ++
            xorMask [0] fC4.payload,
          (ShadowTlsHmac.new [1]).update (xorMask [0] fC4.payload)) := by
  have hlen : fC4.payload.length = 65533 := by
    show (List.replicate 65533 0).length = 65533
    exact List.length_replicate _ _
  exact ⟨rfl, hlen, C4_oversize_not_rejected _ _ fC4 rfl hlen⟩

/-- C5: parse_server_hello accepts ServerHello frames whose
supported_versions value is 0x0305 or 0x0204: the check uses a logical
AND (version_bytes[0] != 3 && version_bytes[1] != 4), so any value
whose first byte is 3 or whose second byte is 4 passes, contradicting
the claim (and the code's own error message) that only 0x0304 is
accepted. -/
theorem C5_wrong_supported_version_accepted :
    parse_server_hello frameC5a = .ok (List.replicate 32 1) ∧
    parse_server_hello frameC5b = .ok (List.replicate 32 1) := by
  constructor <;> decide

/-- C6 (amended): on the matching transition record, the rolling client
context absorbs the payload bytes after the first 4 (the initial covert
data) followed by a fresh digest of itself; since the record matched,
that fresh digest equals the 4-byte tag, so the context ends with
data ++ payload[4..] ++ payload[..4] and the next client tag depends on
this transition.  The claim's "absorbs those 4 bytes (the tag) plus a
fresh digest" names the wrong first absorption: see the
counterexample. -/
theorem C6_absorbs_data_then_tag (hc : ShadowTlsHmac) (f : TlsFrame) (fs : List TlsFrame)
    (h1 : f.ct = CONTENT_TYPE_APPLICATION_DATA) (h2 : 4 ≤ f.payload.length)
    (h3 : (hc.update (f.payload.drop 4)).finalized_digest = f.payload.take 4) :
    clientLoop hc (f :: fs) =
      .transition [] (f.payload.drop 4)
        ⟨hc.key, hc.data ++ f.payload.drop 4 ++ f.payload.take 4⟩ fs :=
  clientLoop_cons_match hc f fs h1 h2 h3

/-- C6 witness: a matching 4-byte record (payload = tag): the context
absorbs the empty covert data and then the tag. -/
theorem C6_absorbs_data_then_tag_witness :
    clientLoop hcC2 [fC2match] =
      .transition [] (fC2match.payload.drop 4)
        ⟨hcC2.key, hcC2.data ++ fC2match.payload.drop 4 ++ fC2match.payload.take 4⟩ [] := by
  have hlen4 : tagC2.length = 4 := length_digest hcC2
  apply C6_absorbs_data_then_tag hcC2 fC2match [] rfl (by show 4 ≤ tagC2.length; omega)
  show (hcC2.update (tagC2.drop 4)).finalized_digest = tagC2.take 4
  rw [show tagC2.drop 4 = [] from by rw [← hlen4]; exact List.drop_length _,
    show tagC2.take 4 = tagC2 from by rw [← hlen4]; exact List.take_length _,
    update_nil]
  rfl

/-- C6 counterexample: the claim as stated is false: at this matching
transition record the context produced by the code differs from the
context prescribed by the spec text (absorb the 4 tag bytes plus a
fresh digest); the two absorb different byte strings (4 versus 8 bytes
here). -/
theorem C6_counterexample :
    (hcC6.update (fC6.payload.drop 4)).finalized_digest = fC6.payload.take 4 ∧
    clientLoop hcC6 [fC6] =
      .transition [] (fC6.payload.drop 4)
        ⟨hcC6.key, hcC6.data ++ fC6.payload.drop 4 ++ fC6.payload.take 4⟩ [] ∧
    (⟨hcC6.key, hcC6.data ++ fC6.payload.drop 4 ++ fC6.payload.take 4⟩ : ShadowTlsHmac) ≠
      specTransitionHmacUpdate hcC6 fC6.payload := by
  have hlen4 : tagC6.length = 4 := length_digest hcC6
  have hdrop : fC6.payload.drop 4 = [] := by
    show tagC6.drop 4 = []; rw [← hlen4]; exact List.drop_length _
  have htake : fC6.payload.take 4 = tagC6 := by
    show tagC6.take 4 = tagC6; rw [← hlen4]; exact List.take_length _
  have hmatch : (hcC6.update (fC6.payload.drop 4)).finalized_digest = fC6.payload.take 4 := by
    rw [hdrop, htake, update_nil]; rfl
  refine ⟨hmatch,
    clientLoop_cons_match hcC6 fC6 [] rfl (by show 4 ≤ tagC6.length; omega) hmatch, ?_⟩
  intro heq
  have hlenEq := congrArg (fun z : ShadowTlsHmac => z.data.length) heq
  have hL1 : (hcC6.data ++ fC6.payload.drop 4 ++ fC6.payload.take 4).length = 4 := by
    rw [hdrop, htake]
    simp [hcC6, ShadowTlsHmac.new, hlen4]
  have hL2 : (specTransitionHmacUpdate hcC6 fC6.payload).data.length = 8 := by
    unfold specTransitionHmacUpdate
    simp only [update_data, List.length_append, htake, length_digest]
    simp [hcC6, ShadowTlsHmac.new, hlen4]
  simp only at hlenEq
  rw [hL1, hL2] at hlenEq
  exact absurd hlenEq (by norm_num)

/-- C7 (amended): setup_shadowtls_server_stream returns InvalidData
"client does not support TLS1.3" exactly when the parsed hello carries
a 32-byte-session-id digest and its supports_tls13 flag is false (the
missing-session-id check runs first; see the counterexample);
read_client_hello's extension walk sets supports_tls13 exactly when the
supported_versions (0x002b) extension's 2-byte version list contains
the pair 0x03 0x04 at an even offset. -/
theorem C7_tls13_flag_amended :
    (∀ (pw : List Nat) (p : ParsedClientHello) (t3 : List Nat × Nat × Nat),
        p.parsed_digest = some t3 →
        (setupVerifyClientHello (ShadowTlsHmac.new pw) p =
            .error "client does not support TLS1.3" ↔ p.supports_tls13 = false)) ∧
    (∀ (hi lo : Nat) (vb : List Nat), vb.length % 2 = 0 →
        clientExtLoop ([0x00, 0x2b, hi, lo, vb.length] ++ vb) none false =
          .ok (none, hasTls13Pair vb)) ∧
    (∀ vb : List Nat, hasTls13Pair vb = true ↔
        ∃ i, i % 2 = 0 ∧ vb.get? i = some 3 ∧ vb.get? (i + 1) = some 4) :=
  ⟨fun pw p t3 hd => setupVerify_tls13_iff pw p t3 hd,
   fun hi lo vb h => clientExtLoop_single_supported_versions hi lo vb h,
   fun vb => hasTls13Pair_iff vb⟩

/-- C7 witness: a digest-bearing hello without TLS 1.3 gets the TLS 1.3
error, and a supported_versions list containing 0x0304 sets the flag. -/
theorem C7_tls13_flag_witness :
    pC7w.parsed_digest = some ([0, 0, 0, 0], 9, 13) ∧
    setupVerifyClientHello (ShadowTlsHmac.new [2]) pC7w =
      .error "client does not support TLS1.3" ∧
    clientExtLoop [0x00, 0x2b, 9, 9, 2, 3, 4] none false = .ok (none, true) := by
  refine ⟨rfl, (C7_tls13_flag_amended.1 [2] pC7w _ rfl).mpr rfl, ?_⟩
  exact C7_tls13_flag_amended.2.1 9 9 [3, 4] (by decide)

/-- C7 counterexample: the claim's "exactly when the flag is false" is
refuted by a parsed hello with no 32-byte session id: its flag is
false, yet the error returned is the missing-session-id error, not the
TLS 1.3 one. -/
theorem C7_counterexample :
    pC7cx.supports_tls13 = false ∧
    setupVerifyClientHello (ShadowTlsHmac.new [2]) pC7cx =
      .error "client did not send a 32-byte session id" ∧
    setupVerifyClientHello (ShadowTlsHmac.new [2]) pC7cx ≠
      .error "client does not support TLS1.3" := by
  refine ⟨rfl, rfl, ?_⟩
  intro h
  rw [show setupVerifyClientHello (ShadowTlsHmac.new [2]) pC7cx =
    .error "client did not send a 32-byte session id" from rfl] at h
  rw [Except.error.injEq] at h
  exact absurd h (by decide)

/-- C8: for every key and sequence of update calls, digest and
finalized_digest both return the first 4 bytes of HMAC-SHA1 over the
concatenation of all bytes fed so far; digest equals finalized_digest
of a clone; and in any operation trace, a digest call neither changes
the final context nor the tags later digest calls return (it only emits
the tag of the bytes fed up to that point). -/
theorem C8_hmac_contract :
    (∀ (key : List Nat) (slices : List (List Nat)),
        (slices.foldl ShadowTlsHmac.update (ShadowTlsHmac.new key)).digest =
          (hmacSha1 key slices.flatten).take 4 ∧
        (slices.foldl ShadowTlsHmac.update (ShadowTlsHmac.new key)).finalized_digest =
          (hmacSha1 key slices.flatten).take 4) ∧
    (∀ h : ShadowTlsHmac, h.clone.finalized_digest = h.digest) ∧
    (∀ (h : ShadowTlsHmac) (l1 l2 : List HmacOp),
        runOps h (l1 ++ l2) = ((runOps (runOps h l1).1 l2).1,
          (runOps h l1).2 ++ (runOps (runOps h l1).1 l2).2)) ∧
    (∀ (h : ShadowTlsHmac) (l1 l2 : List HmacOp),
        runOps h (l1 ++ HmacOp.dig :: l2) = ((runOps (runOps h l1).1 l2).1,
          (runOps h l1).2 ++ (runOps h l1).1.digest :: (runOps (runOps h l1).1 l2).2)) := by
  refine ⟨?_, fun h => rfl, runOps_append, ?_⟩
  · intro key slices
    rw [foldl_update]
    constructor <;>
      simp [ShadowTlsHmac.new, ShadowTlsHmac.update, ShadowTlsHmac.digest,
        ShadowTlsHmac.finalized_digest]
  · intro h l1 l2
    rw [runOps_append h l1 (HmacOp.dig :: l2)]
    simp [runOps]

/-- C9: a pre-transition client ApplicationData record with fewer than
4 payload bytes makes the recognition step slice payload[4..] and
payload[..4] out of bounds: the loop ends in the modelled Rust panic
instead of forwarding the frame or returning an error. -/
theorem C9_short_payload_crash (hc : ShadowTlsHmac) (f : TlsFrame) (fs : List TlsFrame)
    (hct : f.ct = CONTENT_TYPE_APPLICATION_DATA) (hlen : f.payload.length < 4) :
    clientLoop hc (f :: fs) = .crashed [] :=
  clientLoop_cons_crash hc f fs hct hlen

/-- C9 witness: a zero-length ApplicationData record. -/
theorem C9_short_payload_crash_witness :
    (⟨23, 3, 3, ([] : List Nat)⟩ : TlsFrame).ct = CONTENT_TYPE_APPLICATION_DATA ∧
    (⟨23, 3, 3, ([] : List Nat)⟩ : TlsFrame).payload.length < 4 ∧
    clientLoop (ShadowTlsHmac.new [3]) [⟨23, 3, 3, []⟩] = .crashed [] :=
  ⟨rfl, by decide, C9_short_payload_crash (ShadowTlsHmac.new [3]) ⟨23, 3, 3, []⟩ [] rfl
    (by decide)⟩

/-- C10: parse_server_hello reads fixed offsets up to byte 80 without a
length check: this 50-byte frame passes every check up to the session
id length, then the read of bytes 79 and 80 is out of bounds and the
function crashes (a Rust index panic) instead of returning
InvalidData. -/
theorem C10_short_frame_crash :
    frameC10.length = 50 ∧ parse_server_hello frameC10 = .crashed := by
  constructor <;> decide

end ShoesVerify
